import Mathlib

/-!
Verification of the homebridge-samsung-window-ac repository.

This file gives a shallow embedding of the accessory state machine
(the cached SamsungWindowACAccessory class), of the pure mode-translation
tables, of the device-status decoding, and of the TokenManager credential
logic, and proves properties of those definitions.

Temperatures, timestamps and HomeKit mode numbers are JavaScript numbers
in the source; all values the program manipulates here are integral
(whole degrees, milliseconds, mode codes 0..3), so they are embedded as
Int.  Remote HTTP calls are embedded as oracle parameters: a Bool giving
the success/failure of the issued command (result.status == COMPLETED
versus any failure), and the arguments transmitted to the remote API are
recorded in the result so that properties about what is sent can be
stated.
-/

namespace SamsungAC

/-- AC_MODE_MAPPING with the default 0 of the ?? operator:
Samsung AC mode strings to HomeKit mode numbers. -/
def samsungModeToHomeKit (samsungMode : String) : Int :=
  if samsungMode = "off" then 0
  else if samsungMode = "cool" then 2
  else if samsungMode = "dry" then 1
  else if samsungMode = "aIComfort" then 3
  else if samsungMode = "fan" then 0
  else 0

/-- HOMEKIT_MODE_MAPPING with the default "off" of the ?? operator:
HomeKit mode numbers to Samsung AC mode strings. -/
def homeKitModeToSamsung (homeKitMode : Int) : String :=
  if homeKitMode = 0 then "off"
  else if homeKitMode = 1 then "dry"
  else if homeKitMode = 2 then "cool"
  else if homeKitMode = 3 then "aIComfort"
  else "off"

/-- The bit-relevant fields of the unified DeviceStatusResponse snapshot
(components.main, one value per capability block). -/
structure DeviceStatus where
  switchValue : String
  temperature : Int
  humidity : Int
  airConditionerMode : String
  coolingSetpoint : Int
deriving DecidableEq

/-- The status-decoding branch of getCurrentHeatingCoolingState: when the
switch is not on the state is 0, otherwise the mode mapping with auto (3)
collapsed to cool (2). -/
def getCurrentHeatingCoolingStateFromStatus (status : DeviceStatus) : Int :=
  let isActive := status.switchValue == "on"
  if !isActive then 0
  else
    let homeKitMode := samsungModeToHomeKit status.airConditionerMode
    if homeKitMode = 3 then 2 else homeKitMode

/-- The status-decoding branch of getTargetHeatingCoolingState: the mode
mapping applied to airConditionerMode (the switch value is not consulted). -/
def getTargetHeatingCoolingStateFromStatus (status : DeviceStatus) : Int :=
  samsungModeToHomeKit status.airConditionerMode

/-- The acStates record of the accessory (the local last-observed state). -/
structure ACStates where
  Active : Bool
  CurrentHeatingCoolingState : Int
  TargetHeatingCoolingState : Int
  CurrentTemperature : Int
  TargetTemperature : Int
  CoolingThresholdTemperature : Int
  HeatingThresholdTemperature : Int
  CurrentHumidity : Int
  TemperatureDisplayUnits : Int
deriving DecidableEq

/-- A cached characteristic value: the TypeScript cache stores
boolean or number. -/
inductive CVal where
  | vb (b : Bool)
  | vn (x : Int)
deriving DecidableEq

/-- One entry of characteristicCaches: value plus capture timestamp. -/
structure CacheEntry where
  value : CVal
  timestamp : Int
deriving DecidableEq

/-- characteristicCaches: a finite map from characteristic name to entry,
embedded as an association list. -/
def Caches : Type := List (String × CacheEntry)

instance : DecidableEq Caches := by
  unfold Caches
  infer_instance

/-- updateCharacteristicCache: store value under key with the current
timestamp, replacing any previous entry for that key. -/
def updateCharacteristicCache (c : Caches) (key : String) (v : CVal) (now : Int) : Caches :=
  (key, { value := v, timestamp := now }) :: c.filter (fun e => e.1 != key)

/-- The observable outcome of one characteristic set handler: the new
acStates, the new characteristicCaches, the value of the handler's
success variable (none when the handler issued no remote command and has
no such variable), and the arguments transmitted to the remote API:
the setpoint argument of a setCoolingSetpoint command, the mode argument
of a setAirConditionerMode command, and whether a switch-off command was
issued. -/
structure HandlerResult where
  acStates : ACStates
  caches : Caches
  success : Option Bool
  sentTemp : Option Int := none
  sentMode : Option String := none
  sentSwitchOff : Bool := false
deriving DecidableEq

/-- setActive handler of the cached accessory.  remoteOk is the outcome of
the single remote command issued (setACMode when turning on, turnOffAC
when turning off). -/
def setActive (st : ACStates) (c : Caches) (isActive : Bool) (remoteOk : Bool)
    (now : Int) : HandlerResult :=
  if isActive then
    let samsungMode := homeKitModeToSamsung st.TargetHeatingCoolingState
    if remoteOk then
      let st1 := { st with Active := true,
                           CurrentHeatingCoolingState := st.TargetHeatingCoolingState }
      let c1 := updateCharacteristicCache c "Active" (.vb true) now
      let c2 := updateCharacteristicCache c1 "CurrentHeatingCoolingState"
        (.vn st1.CurrentHeatingCoolingState) now
      let c3 := updateCharacteristicCache c2 "TargetHeatingCoolingState"
        (.vn st1.TargetHeatingCoolingState) now
      { acStates := st1, caches := c3, success := some true, sentMode := some samsungMode }
    else
      { acStates := st, caches := c, success := some false, sentMode := some samsungMode }
  else
    if remoteOk then
      let st1 := { st with Active := false,
                           CurrentHeatingCoolingState := 0,
                           TargetHeatingCoolingState := 0 }
      let c1 := updateCharacteristicCache c "Active" (.vb false) now
      let c2 := updateCharacteristicCache c1 "CurrentHeatingCoolingState" (.vn 0) now
      let c3 := updateCharacteristicCache c2 "TargetHeatingCoolingState" (.vn 0) now
      { acStates := st1, caches := c3, success := some true, sentSwitchOff := true }
    else
      { acStates := st, caches := c, success := some false, sentSwitchOff := true }

/-- setTargetHeatingCoolingState handler of the cached accessory.
cmdOk is the outcome of the one command that decides the success variable
(turnOffAC for mode 0, setACMode otherwise).  In the auto branch the
follow-up setCoolingSetpoint command is issued with the current heating
threshold and its result is discarded by the source, so it has no oracle
here; its transmitted argument is recorded in sentTemp. -/
def setTargetHeatingCoolingState (st : ACStates) (c : Caches) (homeKitMode : Int)
    (cmdOk : Bool) (now : Int) : HandlerResult :=
  let samsungMode := homeKitModeToSamsung homeKitMode
  let sentModeV : Option String := if homeKitMode = 0 then none else some samsungMode
  let sentOffV : Bool := homeKitMode = 0
  let success := cmdOk
  if success then
    let targetTemp := st.HeatingThresholdTemperature
    let st1 :=
      if homeKitMode = 3 then
        { st with CoolingThresholdTemperature := min (targetTemp + 4) 30 }
      else st
    let sentTempV : Option Int := if homeKitMode = 3 then some targetTemp else none
    let st2 := { st1 with TargetHeatingCoolingState := homeKitMode }
    let st3 :=
      if st.Active then
        { st2 with CurrentHeatingCoolingState := if homeKitMode = 3 then 2 else homeKitMode }
      else st2
    let c1 := updateCharacteristicCache c "TargetHeatingCoolingState" (.vn homeKitMode) now
    let c2 := updateCharacteristicCache c1 "CurrentHeatingCoolingState"
      (.vn st3.CurrentHeatingCoolingState) now
    let c3 :=
      if homeKitMode = 3 then
        let ca := updateCharacteristicCache c2 "HeatingThresholdTemperature"
          (.vn st3.HeatingThresholdTemperature) now
        let cb := updateCharacteristicCache ca "CoolingThresholdTemperature"
          (.vn st3.CoolingThresholdTemperature) now
        updateCharacteristicCache cb "TargetTemperature" (.vn st3.TargetTemperature) now
      else c2
    if homeKitMode = 0 then
      let st4 := { st3 with Active := false }
      let c4 := updateCharacteristicCache c3 "Active" (.vb false) now
      { acStates := st4, caches := c4, success := some true,
        sentTemp := sentTempV, sentMode := sentModeV, sentSwitchOff := sentOffV }
    else
      let st4 := { st3 with Active := true }
      let c4 := updateCharacteristicCache c3 "Active" (.vb true) now
      { acStates := st4, caches := c4, success := some true,
        sentTemp := sentTempV, sentMode := sentModeV, sentSwitchOff := sentOffV }
  else
    { acStates := st, caches := c, success := some false,
      sentMode := sentModeV, sentSwitchOff := sentOffV }

/-- setTargetTemperature handler of the cached accessory.  The raw input
temperature is transmitted to the remote setCoolingSetpoint command;
remoteOk is that command's outcome. -/
def setTargetTemperature (st : ACStates) (c : Caches) (temperature : Int)
    (remoteOk : Bool) (now : Int) : HandlerResult :=
  if remoteOk then
    let st1 := { st with TargetTemperature := temperature,
                         HeatingThresholdTemperature := temperature,
                         CoolingThresholdTemperature := temperature }
    let c1 := updateCharacteristicCache c "TargetTemperature" (.vn temperature) now
    let c2 := updateCharacteristicCache c1 "HeatingThresholdTemperature" (.vn temperature) now
    if st.TargetHeatingCoolingState = 3 then
      let coolingThreshold := min (temperature + 4) 30
      let st2 := { st1 with CoolingThresholdTemperature := coolingThreshold }
      let c3 := updateCharacteristicCache c2 "CoolingThresholdTemperature"
        (.vn coolingThreshold) now
      { acStates := st2, caches := c3, success := some true, sentTemp := some temperature }
    else
      let c3 := updateCharacteristicCache c2 "CoolingThresholdTemperature"
        (.vn temperature) now
      { acStates := st1, caches := c3, success := some true, sentTemp := some temperature }
  else
    { acStates := st, caches := c, success := some false, sentTemp := some temperature }

/-- setCoolingThresholdTemperature handler of the cached accessory.
The clamped value is stored locally first; only in auto mode is a remote
setCoolingSetpoint command issued (with the derived heating threshold as
argument), whose outcome is remoteOk.  Outside auto mode no remote
command is issued at all and success is none. -/
def setCoolingThresholdTemperature (st : ACStates) (c : Caches) (temperature : Int)
    (remoteOk : Bool) (now : Int) : HandlerResult :=
  let stored := if temperature < 18 ∨ temperature > 30
                then max 18 (min 30 temperature) else temperature
  let st1 := { st with CoolingThresholdTemperature := stored }
  if st1.TargetHeatingCoolingState = 3 then
    let heatingThreshold := max (st1.CoolingThresholdTemperature - 4) 18
    let st2 := { st1 with HeatingThresholdTemperature := heatingThreshold }
    if remoteOk then
      let st3 := { st2 with TargetTemperature := heatingThreshold }
      let c1 := updateCharacteristicCache c "TargetTemperature" (.vn st3.TargetTemperature) now
      let c2 := updateCharacteristicCache c1 "HeatingThresholdTemperature"
        (.vn st3.HeatingThresholdTemperature) now
      let c3 := updateCharacteristicCache c2 "CoolingThresholdTemperature"
        (.vn st3.CoolingThresholdTemperature) now
      { acStates := st3, caches := c3, success := some true, sentTemp := some heatingThreshold }
    else
      { acStates := st2, caches := c, success := some false, sentTemp := some heatingThreshold }
  else
    { acStates := st1, caches := c, success := none }

/-- setHeatingThresholdTemperature handler of the cached accessory.
The clamped value is stored locally first (and in auto mode the derived
cooling threshold too); then a remote setCoolingSetpoint command is always
issued with the stored heating threshold as argument, with outcome remoteOk. -/
def setHeatingThresholdTemperature (st : ACStates) (c : Caches) (temperature : Int)
    (remoteOk : Bool) (now : Int) : HandlerResult :=
  let stored := if temperature < 18 ∨ temperature > 30
                then max 18 (min 30 temperature) else temperature
  let st1 := { st with HeatingThresholdTemperature := stored }
  let st2 :=
    if st1.TargetHeatingCoolingState = 3 then
      { st1 with CoolingThresholdTemperature := min (st1.HeatingThresholdTemperature + 4) 30 }
    else st1
  if remoteOk then
    let st3 := { st2 with TargetTemperature := st2.HeatingThresholdTemperature }
    let c1 := updateCharacteristicCache c "TargetTemperature" (.vn st3.TargetTemperature) now
    let c2 := updateCharacteristicCache c1 "HeatingThresholdTemperature"
      (.vn st3.HeatingThresholdTemperature) now
    let c3 := updateCharacteristicCache c2 "CoolingThresholdTemperature"
      (.vn st3.CoolingThresholdTemperature) now
    { acStates := st3, caches := c3, success := some true,
      sentTemp := some st2.HeatingThresholdTemperature }
  else
    { acStates := st2, caches := c, success := some false,
      sentTemp := some st2.HeatingThresholdTemperature }

/-- Whether a transmitted setpoint argument (if any) lies in the valid
range 18..30; a handler that transmitted nothing satisfies it vacuously. -/
def sentInRange (o : Option Int) : Bool :=
  o.all (fun v => decide (18 ≤ v) && decide (v ≤ 30))

/-- The in-memory fields of TokenManager: accessToken and refreshToken
(null embedded as none) and the expiresAt millisecond timestamp. -/
structure TokenState where
  accessToken : Option String
  refreshToken : Option String
  expiresAt : Int
deriving DecidableEq

/-- The bit-relevant fields of a successful oauth token response. -/
structure TokenResponse where
  access_token : String
  refresh_token : String
  expires_in : Int
deriving DecidableEq

/-- JavaScript falsiness of the accessToken field: null or the empty
string (the source tests it with the ! operator). -/
def tokenFalsy : Option String → Bool
  | none => true
  | some s => s == ""

/-- The refresh guard of getAccessToken: no usable access token, or now
has reached expiresAt minus the 5-minute buffer. -/
def needsRefresh (st : TokenState) (now : Int) : Bool :=
  tokenFalsy st.accessToken || decide (now ≥ st.expiresAt - 5 * 60 * 1000)

/-- refreshTokens: the refresh exchange against the oauth endpoint.
The oracle resp is the HTTP outcome.  On success all three fields are
replaced, with expiresAt derived as now plus the declared lifetime in
seconds times 1000; the subsequent file save swallows its own errors, so
it cannot change the fields or the outcome.  On failure the thrown error
is rethrown by the catch block and the fields keep their prior values. -/
def refreshTokens (st : TokenState) (now : Int)
    (resp : Except String TokenResponse) : TokenState × Except String Unit :=
  match resp with
  | .error e => (st, .error e)
  | .ok r =>
    ({ accessToken := some r.access_token,
       refreshToken := some r.refresh_token,
       expiresAt := now + r.expires_in * 1000 }, .ok ())

/-- getAccessToken: refresh when the guard fires, then return the access
token or an error when none is available.  The Bool of the result records
whether a refresh exchange was performed. -/
def getAccessToken (st : TokenState) (now : Int)
    (resp : Except String TokenResponse) :
    TokenState × Except String String × Bool :=
  let doRefresh := needsRefresh st now
  let step := if doRefresh then refreshTokens st now resp else (st, .ok ())
  match step.2 with
  | .error e => (step.1, .error e, doRefresh)
  | .ok _ =>
    match step.1.accessToken with
    | none => (step.1, .error "No access token available", doRefresh)
    | some tok =>
      if tok == "" then (step.1, .error "No access token available", doRefresh)
      else (step.1, .ok tok, doRefresh)

/-- Progress of one getAccessToken caller through the event loop:
idle (not yet scheduled), awaitingHttp (it has evaluated the guard,
entered refreshTokens and is suspended on the HTTP await), done. -/
inductive CallerPhase where
  | idle
  | awaitingHttp
  | done
deriving DecidableEq

/-- One of two concurrent getAccessToken callers. -/
inductive Caller where
  | A
  | B
deriving DecidableEq

/-- Shared world of two concurrent getAccessToken calls on one
TokenManager: the shared token fields, the number of refresh exchanges
issued against the token endpoint so far, and each caller's phase. -/
structure RefreshWorld where
  tokens : TokenState
  exchanges : Nat
  phaseA : CallerPhase
  phaseB : CallerPhase
deriving DecidableEq

/-- The synchronous prefix of one getAccessToken call: it runs from entry
up to the HTTP await inside refreshTokens.  The guard reads only the
shared accessToken and expiresAt fields; TokenManager has no field that
records an in-flight refresh, so nothing marks that another caller is
already refreshing.  If the guard fires, the HTTP refresh exchange is
issued here (exchanges grows) and the caller suspends; the token fields
are assigned only when the await resolves. -/
def startGetAccessToken (w : RefreshWorld) (c : Caller) (now : Int) : RefreshWorld :=
  let phase := match c with | .A => w.phaseA | .B => w.phaseB
  match phase with
  | .idle =>
    if needsRefresh w.tokens now then
      let w1 := { w with exchanges := w.exchanges + 1 }
      match c with
      | .A => { w1 with phaseA := .awaitingHttp }
      | .B => { w1 with phaseB := .awaitingHttp }
    else
      match c with
      | .A => { w with phaseA := .done }
      | .B => { w with phaseB := .done }
  | _ => w

/-- Resolution of a suspended caller's HTTP await with a successful
response: the three token fields are assigned and the caller finishes. -/
def resolveRefresh (w : RefreshWorld) (c : Caller) (now : Int)
    (r : TokenResponse) : RefreshWorld :=
  let phase := match c with | .A => w.phaseA | .B => w.phaseB
  match phase with
  | .awaitingHttp =>
    let w1 := { w with tokens :=
      { accessToken := some r.access_token,
        refreshToken := some r.refresh_token,
        expiresAt := now + r.expires_in * 1000 } }
    match c with
    | .A => { w1 with phaseA := .done }
    | .B => { w1 with phaseB := .done }
  | _ => w

/-- Two getAccessToken calls arriving concurrently on the event loop:
caller A runs to its HTTP await, then caller B runs to its HTTP await
(before A's refresh has resolved, so B observes the same token fields),
then the two awaits resolve in order. -/
def twoConcurrentCalls (st : TokenState) (now : Int) (r : TokenResponse) : RefreshWorld :=
  let w0 : RefreshWorld := { tokens := st, exchanges := 0, phaseA := .idle, phaseB := .idle }
  let w1 := startGetAccessToken w0 .A now
  let w2 := startGetAccessToken w1 .B now
  let w3 := resolveRefresh w2 .A now r
  resolveRefresh w3 .B now r

/-- A concrete acStates value: active, target mode cool (2), every
temperature field 24, humidity 50. -/
def stCool : ACStates :=
  { Active := true, CurrentHeatingCoolingState := 2, TargetHeatingCoolingState := 2,
    CurrentTemperature := 24, TargetTemperature := 24,
    CoolingThresholdTemperature := 24, HeatingThresholdTemperature := 24,
    CurrentHumidity := 50, TemperatureDisplayUnits := 0 }

/-- A concrete acStates value in auto mode (target mode 3). -/
def stAuto : ACStates :=
  { stCool with TargetHeatingCoolingState := 3 }

/-- A concrete status snapshot: switch off while the remote mode reports
cool. -/
def statusOffCool : DeviceStatus :=
  { switchValue := "off", temperature := 24, humidity := 50,
    airConditionerMode := "cool", coolingSetpoint := 24 }

/-- A concrete expired credential: token present, expiry in the past. -/
def expiredTokens : TokenState :=
  { accessToken := some "atk", refreshToken := some "rtk", expiresAt := 0 }

/-- A concrete successful token response. -/
def freshResponse : TokenResponse :=
  { access_token := "atk2", refresh_token := "rtk2", expires_in := 86400 }

/-- The refresh flag of getAccessToken is exactly the guard needsRefresh. -/
theorem getAccessToken_flag (st : TokenState) (now : Int)
    (resp : Except String TokenResponse) :
    (getAccessToken st now resp).2.2 = needsRefresh st now := by
  unfold getAccessToken
  dsimp only
  split
  · rfl
  · split
    · rfl
    · split_ifs <;> rfl

/-- Claim C4: for every host target-mode m in 0..3, decoding the remote
mode produced by encoding m yields m back, and the remote mode fan is not
in the image of the encoder. -/
theorem mode_roundtrip (m : Int) (h0 : 0 ≤ m) (h3 : m ≤ 3) :
    samsungModeToHomeKit (homeKitModeToSamsung m) = m ∧
    ∀ k : Int, homeKitModeToSamsung k ≠ "fan" := by
  constructor
  · interval_cases m <;> decide
  · intro k
    unfold homeKitModeToSamsung
    split_ifs <;> decide

/-- Witness for mode_roundtrip at m = 3. -/
theorem mode_roundtrip_witness :
    (0 : Int) ≤ 3 ∧ (3 : Int) ≤ 3 ∧
    (samsungModeToHomeKit (homeKitModeToSamsung 3) = 3 ∧
      ∀ k : Int, homeKitModeToSamsung k ≠ "fan") :=
  ⟨by decide, by decide, mode_roundtrip 3 (by decide) (by decide)⟩

/-- Claim C10: samsungModeToHomeKit is total with values in 0..3, and
every string other than the five known remote modes maps to 0. -/
theorem samsungModeToHomeKit_total :
    (∀ s, samsungModeToHomeKit s = 0 ∨ samsungModeToHomeKit s = 1 ∨
      samsungModeToHomeKit s = 2 ∨ samsungModeToHomeKit s = 3) ∧
    (∀ s, s ≠ "off" → s ≠ "cool" → s ≠ "dry" → s ≠ "aIComfort" → s ≠ "fan" →
      samsungModeToHomeKit s = 0) := by
  constructor
  · intro s
    unfold samsungModeToHomeKit
    split_ifs <;> simp
  · intro s h1 h2 h3 h4 h5
    simp [samsungModeToHomeKit, h1, h2, h3, h4, h5]

/-- Witness for samsungModeToHomeKit_total at the unknown string heat. -/
theorem samsungModeToHomeKit_total_witness :
    "heat" ≠ "off" ∧ "heat" ≠ "cool" ∧ "heat" ≠ "dry" ∧
    "heat" ≠ "aIComfort" ∧ "heat" ≠ "fan" ∧
    samsungModeToHomeKit "heat" = 0 :=
  ⟨by decide, by decide, by decide, by decide, by decide,
    samsungModeToHomeKit_total.2 "heat" (by decide) (by decide) (by decide)
      (by decide) (by decide)⟩

/-- Counterexample to claim C2: in the snapshot with switch off and
airConditionerMode cool, the current state decodes to 0 but the target
state decodes to 2, not 0. -/
theorem switch_off_target_not_off :
    getCurrentHeatingCoolingStateFromStatus statusOffCool = 0 ∧
    getTargetHeatingCoolingStateFromStatus statusOffCool = 2 ∧
    getTargetHeatingCoolingStateFromStatus statusOffCool ≠ 0 := by
  decide

/-- Claim C2 (amended): switch off forces the decoded current state to 0
regardless of mode, but the decoded target state is the mode mapping of
airConditionerMode alone, ignoring the switch; concretely switch off with
mode cool yields target 2. -/
theorem switch_off_decoding (status : DeviceStatus)
    (hoff : status.switchValue = "off") :
    getCurrentHeatingCoolingStateFromStatus status = 0 ∧
    getTargetHeatingCoolingStateFromStatus status =
      samsungModeToHomeKit status.airConditionerMode ∧
    getTargetHeatingCoolingStateFromStatus statusOffCool = 2 := by
  refine ⟨?_, rfl, by decide⟩
  unfold getCurrentHeatingCoolingStateFromStatus
  rw [hoff]
  simp

/-- Witness for switch_off_decoding at the concrete off-and-cool snapshot. -/
theorem switch_off_decoding_witness :
    statusOffCool.switchValue = "off" ∧
    (getCurrentHeatingCoolingStateFromStatus statusOffCool = 0 ∧
     getTargetHeatingCoolingStateFromStatus statusOffCool =
       samsungModeToHomeKit statusOffCool.airConditionerMode ∧
     getTargetHeatingCoolingStateFromStatus statusOffCool = 2) :=
  ⟨by decide, switch_off_decoding statusOffCool (by decide)⟩

/-- Claim C7: getAccessToken performs a refresh exchange if and only if
the remaining lifetime expiresAt minus now is at most 5 minutes (given a
usable access token), always refreshes when no token is present, and in
particular a credential expiring in 4 minutes triggers a refresh while
one expiring in 10 minutes does not. -/
theorem getAccessToken_refresh_guard (st : TokenState) (now : Int) (s : String)
    (resp : Except String TokenResponse)
    (hs : st.accessToken = some s) (hne : s ≠ "") :
    ((getAccessToken st now resp).2.2 = true ↔
      st.expiresAt - now ≤ 5 * 60 * 1000) ∧
    (getAccessToken { st with accessToken := none } now resp).2.2 = true ∧
    (getAccessToken { st with expiresAt := now + 4 * 60 * 1000 } now resp).2.2 = true ∧
    (getAccessToken { st with expiresAt := now + 10 * 60 * 1000 } now resp).2.2 = false := by
  have hbeq : (s == "") = false := by
    simpa using hne
  refine ⟨?_, ?_, ?_, ?_⟩
  · rw [getAccessToken_flag]
    simp only [needsRefresh, tokenFalsy, hs, hbeq, Bool.false_or,
      decide_eq_true_eq]
    omega
  · rw [getAccessToken_flag]
    simp [needsRefresh, tokenFalsy]
  · rw [getAccessToken_flag]
    simp only [needsRefresh, tokenFalsy, hs, hbeq, Bool.false_or,
      decide_eq_true_eq]
    omega
  · rw [getAccessToken_flag]
    simp only [needsRefresh, tokenFalsy, hs, hbeq, Bool.false_or,
      decide_eq_false_iff_not, decide_eq_true_eq]
    omega

/-- Witness for getAccessToken_refresh_guard at an expired credential. -/
theorem getAccessToken_refresh_guard_witness :
    expiredTokens.accessToken = some "atk" ∧ "atk" ≠ "" ∧
    (((getAccessToken expiredTokens 1000000 (.ok freshResponse)).2.2 = true ↔
        expiredTokens.expiresAt - 1000000 ≤ 5 * 60 * 1000) ∧
     (getAccessToken { expiredTokens with accessToken := none } 1000000
        (.ok freshResponse)).2.2 = true ∧
     (getAccessToken { expiredTokens with expiresAt := 1000000 + 4 * 60 * 1000 }
        1000000 (.ok freshResponse)).2.2 = true ∧
     (getAccessToken { expiredTokens with expiresAt := 1000000 + 10 * 60 * 1000 }
        1000000 (.ok freshResponse)).2.2 = false) :=
  ⟨by decide, by decide,
    getAccessToken_refresh_guard expiredTokens 1000000 "atk" (.ok freshResponse)
      (by decide) (by decide)⟩

/-- Claim C8: the refresh exchange is atomic over the credential triple:
on failure it propagates the error and leaves all three fields exactly as
they were, and on success it replaces all three, with the expiry derived
as now plus the remote-declared lifetime. -/
theorem refreshTokens_atomic (st : TokenState) (now : Int) (e : String)
    (r : TokenResponse) :
    refreshTokens st now (.error e) = (st, .error e) ∧
    refreshTokens st now (.ok r) =
      ({ accessToken := some r.access_token,
         refreshToken := some r.refresh_token,
         expiresAt := now + r.expires_in * 1000 }, .ok ()) :=
  ⟨rfl, rfl⟩

/-- Counterexample to claim C9: with a concrete expired credential, two
concurrent getAccessToken calls issue two refresh exchanges, not exactly
one. -/
theorem concurrent_refresh_not_single :
    (twoConcurrentCalls expiredTokens 1000000 freshResponse).exchanges = 2 ∧
    (twoConcurrentCalls expiredTokens 1000000 freshResponse).exchanges ≠ 1 := by
  decide

/-- Claim C9 (amended): two concurrent getAccessToken calls that both
observe an expired credential each issue their own refresh exchange, two
in total: TokenManager records no in-flight refresh, so the second caller
refreshes instead of waiting. -/
theorem concurrent_refresh_duplicates (st : TokenState) (now : Int)
    (r : TokenResponse) (h : needsRefresh st now = true) :
    (twoConcurrentCalls st now r).exchanges = 2 := by
  unfold twoConcurrentCalls startGetAccessToken resolveRefresh
  simp [h]

/-- Witness for concurrent_refresh_duplicates at the expired credential. -/
theorem concurrent_refresh_duplicates_witness :
    needsRefresh expiredTokens 1000000 = true ∧
    (twoConcurrentCalls expiredTokens 1000000 freshResponse).exchanges = 2 :=
  ⟨by decide, concurrent_refresh_duplicates expiredTokens 1000000 freshResponse
    (by decide)⟩

/-- Counterexample to claim C1: a heating-threshold write whose remote
command fails still mutates acStates (the heating threshold field is
stored before the remote call), even though the handler reports failure. -/
theorem failed_threshold_write_mutates_state :
    (setHeatingThresholdTemperature stCool ([] : Caches) 20 false 0).acStates ≠ stCool ∧
    (setHeatingThresholdTemperature stCool ([] : Caches) 20 false 0).success =
      some false := by
  decide

/-- Claim C1 (amended): a failed remote command never mutates
characteristicCaches and the handler's success flag is false whenever a
remote command was issued (the cooling-threshold write outside auto mode
issues no command and has no flag); for active, mode, and
target-temperature writes a failed command also leaves acStates
untouched, but heating- and cooling-threshold writes store the clamped
threshold (and in auto mode its derived counterpart) in acStates before
the remote call, so only those two fields may change on failure, every
other acStates field being preserved. -/
theorem failed_write_state_effects (st : ACStates) (c : Caches) (t m : Int)
    (b : Bool) (now : Int) :
    ((setActive st c b false now).acStates = st ∧
     (setActive st c b false now).caches = c ∧
     (setActive st c b false now).success = some false) ∧
    ((setTargetHeatingCoolingState st c m false now).acStates = st ∧
     (setTargetHeatingCoolingState st c m false now).caches = c ∧
     (setTargetHeatingCoolingState st c m false now).success = some false) ∧
    ((setTargetTemperature st c t false now).acStates = st ∧
     (setTargetTemperature st c t false now).caches = c ∧
     (setTargetTemperature st c t false now).success = some false) ∧
    ((setHeatingThresholdTemperature st c t false now).caches = c ∧
     (setHeatingThresholdTemperature st c t false now).success = some false ∧
     (setHeatingThresholdTemperature st c t false now).acStates.TargetTemperature =
       st.TargetTemperature ∧
     (setHeatingThresholdTemperature st c t false now).acStates.Active = st.Active ∧
     (setHeatingThresholdTemperature st c t false now).acStates.TargetHeatingCoolingState =
       st.TargetHeatingCoolingState ∧
     (setHeatingThresholdTemperature st c t false now).acStates.CurrentHeatingCoolingState =
       st.CurrentHeatingCoolingState ∧
     (setHeatingThresholdTemperature st c t false now).acStates.CurrentTemperature =
       st.CurrentTemperature ∧
     (setHeatingThresholdTemperature st c t false now).acStates.CurrentHumidity =
       st.CurrentHumidity ∧
     (setHeatingThresholdTemperature st c t false now).acStates.TemperatureDisplayUnits =
       st.TemperatureDisplayUnits) ∧
    ((setCoolingThresholdTemperature st c t false now).caches = c ∧
     (setCoolingThresholdTemperature st c t false now).success =
       (if st.TargetHeatingCoolingState = 3 then some false else none) ∧
     (setCoolingThresholdTemperature st c t false now).acStates.TargetTemperature =
       st.TargetTemperature ∧
     (setCoolingThresholdTemperature st c t false now).acStates.Active = st.Active ∧
     (setCoolingThresholdTemperature st c t false now).acStates.TargetHeatingCoolingState =
       st.TargetHeatingCoolingState ∧
     (setCoolingThresholdTemperature st c t false now).acStates.CurrentHeatingCoolingState =
       st.CurrentHeatingCoolingState ∧
     (setCoolingThresholdTemperature st c t false now).acStates.CurrentTemperature =
       st.CurrentTemperature ∧
     (setCoolingThresholdTemperature st c t false now).acStates.CurrentHumidity =
       st.CurrentHumidity ∧
     (setCoolingThresholdTemperature st c t false now).acStates.TemperatureDisplayUnits =
       st.TemperatureDisplayUnits) := by
  refine ⟨⟨?_, ?_, ?_⟩, ⟨?_, ?_, ?_⟩, ⟨?_, ?_, ?_⟩,
    ⟨?_, ?_, ?_, ?_, ?_, ?_, ?_, ?_, ?_⟩,
    ⟨?_, ?_, ?_, ?_, ?_, ?_, ?_, ?_, ?_⟩⟩ <;>
    simp only [setActive, setTargetHeatingCoolingState, setTargetTemperature,
      setHeatingThresholdTemperature, setCoolingThresholdTemperature,
      Bool.false_eq_true, if_false] <;>
    split_ifs <;> simp_all

/-- Claim C3: in auto mode the derived cooling threshold after a
heating-threshold write of h is min(h + 4, 30) and the derived heating
threshold after a cooling-threshold write of c is max(c - 4, 18); in
particular heating 22 yields cooling 26 and heating 28 yields cooling 30. -/
theorem auto_threshold_derivation (st : ACStates) (c : Caches) (t now : Int)
    (ok : Bool) (h1 : 18 ≤ t) (h2 : t ≤ 30)
    (hauto : st.TargetHeatingCoolingState = 3) :
    (setHeatingThresholdTemperature st c t ok now).acStates.CoolingThresholdTemperature =
      min (t + 4) 30 ∧
    (setCoolingThresholdTemperature st c t ok now).acStates.HeatingThresholdTemperature =
      max (t - 4) 18 ∧
    (setHeatingThresholdTemperature stAuto ([] : Caches) 22 true 0).acStates.CoolingThresholdTemperature = 26 ∧
    (setHeatingThresholdTemperature stAuto ([] : Caches) 28 true 0).acStates.CoolingThresholdTemperature = 30 := by
  have hin : ¬(t < 18 ∨ t > 30) := by omega
  refine ⟨?_, ?_, by decide, by decide⟩
  · simp only [setHeatingThresholdTemperature, hin, if_false, hauto, if_true]
    split_ifs <;> simp
  · simp only [setCoolingThresholdTemperature, hin, if_false, hauto, if_true]
    split_ifs <;> simp

/-- Witness for auto_threshold_derivation at heating threshold 22 in auto
mode. -/
theorem auto_threshold_derivation_witness :
    (18 : Int) ≤ 22 ∧ (22 : Int) ≤ 30 ∧ stAuto.TargetHeatingCoolingState = 3 ∧
    ((setHeatingThresholdTemperature stAuto ([] : Caches) 22 true 0).acStates.CoolingThresholdTemperature =
        min (22 + 4) 30 ∧
     (setCoolingThresholdTemperature stAuto ([] : Caches) 22 true 0).acStates.HeatingThresholdTemperature =
        max (22 - 4) 18 ∧
     (setHeatingThresholdTemperature stAuto ([] : Caches) 22 true 0).acStates.CoolingThresholdTemperature = 26 ∧
     (setHeatingThresholdTemperature stAuto ([] : Caches) 28 true 0).acStates.CoolingThresholdTemperature = 30) :=
  ⟨by decide, by decide, by decide,
    auto_threshold_derivation stAuto ([] : Caches) 22 0 true (by decide) (by decide)
      (by decide)⟩

/-- Counterexample to claim C5: a target-temperature write of 35
transmits 35 to the remote API, outside the range 18..30 and unclamped. -/
theorem unclamped_target_temperature_sent :
    (setTargetTemperature stCool ([] : Caches) 35 true 0).sentTemp = some 35 ∧
    sentInRange (setTargetTemperature stCool ([] : Caches) 35 true 0).sentTemp =
      false := by
  decide

/-- Claim C5 (amended): heating- and cooling-threshold writes clamp before
transmitting, so every setpoint they send to the remote API lies in
18..30, but a target-temperature write transmits its raw input value
without clamping. -/
theorem threshold_writes_clamped_target_raw (st : ACStates) (c : Caches)
    (t now : Int) (ok : Bool) :
    (setTargetTemperature st c t ok now).sentTemp = some t ∧
    sentInRange (setHeatingThresholdTemperature st c t ok now).sentTemp = true ∧
    sentInRange (setCoolingThresholdTemperature st c t ok now).sentTemp = true := by
  refine ⟨?_, ?_, ?_⟩
  · unfold setTargetTemperature
    split_ifs <;> rfl
  · unfold setHeatingThresholdTemperature
    simp only [sentInRange, Option.all]
    split_ifs <;> simp <;> omega
  · unfold setCoolingThresholdTemperature
    simp only [sentInRange, Option.all]
    split_ifs <;> simp <;> omega

/-- Counterexample to claim C6: in cool mode (not auto) a successful
heating-threshold write of 20 leaves heating threshold and target
temperature at 20 but the cooling threshold at its old value 24, so the
three are not all equal. -/
theorem non_auto_threshold_not_synced :
    (setHeatingThresholdTemperature stCool ([] : Caches) 20 true 0).acStates.HeatingThresholdTemperature = 20 ∧
    (setHeatingThresholdTemperature stCool ([] : Caches) 20 true 0).acStates.TargetTemperature = 20 ∧
    (setHeatingThresholdTemperature stCool ([] : Caches) 20 true 0).acStates.CoolingThresholdTemperature = 24 ∧
    ¬((setHeatingThresholdTemperature stCool ([] : Caches) 20 true 0).acStates.CoolingThresholdTemperature =
      (setHeatingThresholdTemperature stCool ([] : Caches) 20 true 0).acStates.TargetTemperature) := by
  decide

/-- Claim C6 (amended): outside auto mode, a successful target-temperature
write sets target temperature and both thresholds to the written value,
but a heating-threshold write updates only heating threshold and target
temperature (the cooling threshold keeps its old value), and a
cooling-threshold write updates only the cooling threshold and issues no
remote command at all. -/
theorem non_auto_write_propagation (st : ACStates) (c : Caches) (t now : Int)
    (hm : st.TargetHeatingCoolingState ≠ 3) (h1 : 18 ≤ t) (h2 : t ≤ 30) :
    ((setTargetTemperature st c t true now).acStates.TargetTemperature = t ∧
     (setTargetTemperature st c t true now).acStates.HeatingThresholdTemperature = t ∧
     (setTargetTemperature st c t true now).acStates.CoolingThresholdTemperature = t) ∧
    ((setHeatingThresholdTemperature st c t true now).acStates.HeatingThresholdTemperature = t ∧
     (setHeatingThresholdTemperature st c t true now).acStates.TargetTemperature = t ∧
     (setHeatingThresholdTemperature st c t true now).acStates.CoolingThresholdTemperature =
       st.CoolingThresholdTemperature) ∧
    ((setCoolingThresholdTemperature st c t true now).acStates.CoolingThresholdTemperature = t ∧
     (setCoolingThresholdTemperature st c t true now).acStates.HeatingThresholdTemperature =
       st.HeatingThresholdTemperature ∧
     (setCoolingThresholdTemperature st c t true now).acStates.TargetTemperature =
       st.TargetTemperature ∧
     (setCoolingThresholdTemperature st c t true now).success = none ∧
     (setCoolingThresholdTemperature st c t true now).sentTemp = none) := by
  have hin : ¬(t < 18 ∨ t > 30) := by omega
  refine ⟨⟨?_, ?_, ?_⟩, ⟨?_, ?_, ?_⟩, ⟨?_, ?_, ?_, ?_, ?_⟩⟩ <;>
    simp only [setTargetTemperature, setHeatingThresholdTemperature,
      setCoolingThresholdTemperature, hin, hm, if_false, if_true]

/-- Witness for non_auto_write_propagation in cool mode at temperature 20. -/
theorem non_auto_write_propagation_witness :
    stCool.TargetHeatingCoolingState ≠ 3 ∧ (18 : Int) ≤ 20 ∧ (20 : Int) ≤ 30 ∧
    (((setTargetTemperature stCool ([] : Caches) 20 true 0).acStates.TargetTemperature = 20 ∧
      (setTargetTemperature stCool ([] : Caches) 20 true 0).acStates.HeatingThresholdTemperature = 20 ∧
      (setTargetTemperature stCool ([] : Caches) 20 true 0).acStates.CoolingThresholdTemperature = 20) ∧
     ((setHeatingThresholdTemperature stCool ([] : Caches) 20 true 0).acStates.HeatingThresholdTemperature = 20 ∧
      (setHeatingThresholdTemperature stCool ([] : Caches) 20 true 0).acStates.TargetTemperature = 20 ∧
      (setHeatingThresholdTemperature stCool ([] : Caches) 20 true 0).acStates.CoolingThresholdTemperature =
        stCool.CoolingThresholdTemperature) ∧
     ((setCoolingThresholdTemperature stCool ([] : Caches) 20 true 0).acStates.CoolingThresholdTemperature = 20 ∧
      (setCoolingThresholdTemperature stCool ([] : Caches) 20 true 0).acStates.HeatingThresholdTemperature =
        stCool.HeatingThresholdTemperature ∧
      (setCoolingThresholdTemperature stCool ([] : Caches) 20 true 0).acStates.TargetTemperature =
        stCool.TargetTemperature ∧
      (setCoolingThresholdTemperature stCool ([] : Caches) 20 true 0).success = none ∧
      (setCoolingThresholdTemperature stCool ([] : Caches) 20 true 0).sentTemp = none)) :=
  ⟨by decide, by decide, by decide,
    non_auto_write_propagation stCool ([] : Caches) 20 0 (by decide) (by decide)
      (by decide)⟩

end SamsungAC
